import Mathlib

/-
Verification development for update_rom_data.py (MAHLE ROM data updater).

The script reads three optionally-present sheets of an Excel workbook
("Drivers & Estimates", "Points", "Fees & costs"), builds the ROM data
document, and writes it as JSON.  We embed the extraction procedure
(extract_rom_data, source lines 50-218) and the command-line driver
(main, source lines 229-260) as executable Lean definitions and prove the
claimed properties about them.

Modelling conventions:
- A cell value (openpyxl with values_only=True) is either None, a number,
  or a string.  Numbers are modelled as exact rationals; the binary
  floating point representation is outside the scope of every claim.
- A row is the fixed-width tuple of the first six cells (the code indexes
  columns 0..5 only; the workbook reader pads rows of a sheet to a
  uniform width, per the spec of the workbook reader).
- A workbook is the three optionally-present sheets, each a list of rows
  (row 1 first).  Rows requested beyond the end of a sheet are all-empty
  and are skipped by every row predicate of the source, so the truncated
  list is observationally equivalent.
- Python truthiness, str(), float(), int(), str.strip(), str.lower(),
  str.replace and substring tests are embedded explicitly below.  The
  digit rendering of a non-integer number and the exotic float() input
  forms (exponents, inf/nan, underscores) are abstracted: no claim
  inspects them, and a numeric rendering never contains Latin letters.
- The meta section of the document (timestamp, fixed labels, source file
  base name) is touched by no claim and involves the real clock; it is
  omitted from the embedded document.
- File system effects (save_json) are represented by the run-outcome type
  RunResult: which outcomes wrote the output file and which exit nonzero.
-/

/-- Value of a single spreadsheet cell as seen through openpyxl with
values_only=True: empty (None), a number, or a string. -/
inductive Cell
  | none
  | num (q : ℚ)
  | str (s : String)
deriving DecidableEq

/-- Python truthiness of a cell value: None, 0 and the empty string are
falsy, everything else is truthy. -/
def truthy : Cell → Bool
  | Cell.none => false
  | Cell.num q => !(decide (q = 0))
  | Cell.str s => !(decide (s = ""))

/-- Decimal digit rendering of a rational (integers render exactly; the
non-integer rendering is a digits-and-dot string, abstracting the exact
decimal expansion, which no claim inspects). -/
def ratStr (q : ℚ) : String :=
  if q.den = 1 then toString q.num
  else toString q.num ++ "." ++ toString q.den

/-- Python str() of a cell value. -/
def cellStr : Cell → String
  | Cell.none => "None"
  | Cell.num q => ratStr q
  | Cell.str s => s

/-- Lower-casing of a string (str.lower). -/
def lowerStr (s : String) : String :=
  String.mk (s.toList.map Char.toLower)

/-- Whether pat occurs at the head of a character list. -/
def chStarts : List Char → List Char → Bool
  | [], _ => true
  | _ :: _, [] => false
  | p :: ps, c :: cs => p == c && chStarts ps cs

/-- Whether pat occurs anywhere in a character list. -/
def chHas (pat : List Char) : List Char → Bool
  | [] => chStarts pat []
  | c :: cs => chStarts pat (c :: cs) || chHas pat cs

/-- Python substring test: pat in s. -/
def strHas (s pat : String) : Bool := chHas pat.toList s.toList

/-- Whitespace characters stripped by str.strip() and accepted around
numeric literals by float() and int(). -/
def isWhite (c : Char) : Bool :=
  c == ' ' || c == '\t' || c == '\n' || c == '\r' || c.toNat == 11 || c.toNat == 12

/-- Python str.strip(): remove leading and trailing whitespace. -/
def stripStr (s : String) : String :=
  String.mk (((s.toList.dropWhile isWhite).reverse.dropWhile isWhite).reverse)

/-- Removal of every occurrence of a single character, embedding the
single-character-pattern uses of str.replace in the source. -/
def removeChar (ch : Char) (s : String) : String :=
  String.mk (s.toList.filter (fun c => !(c == ch)))

/-- Value of a nonempty all-digit character list (0 for the empty list;
callers guard emptiness). -/
def digitsNat (cs : List Char) : ℕ :=
  cs.foldl (fun a c => 10 * a + (c.toNat - 48)) 0

/-- Parse an unsigned decimal integer literal. -/
def digitsVal : List Char → Option ℕ
  | [] => Option.none
  | cs =>
    if cs.all Char.isDigit then Option.some (digitsNat cs)
    else Option.none

/-- Python int(s) on a string: optional sign and decimal digits
(underscore separators are abstracted away; no claim uses them). -/
def parseIntStr (s : String) : Option ℤ :=
  match (stripStr s).toList with
  | '-' :: rest => (digitsVal rest).map (fun n => -(n : ℤ))
  | '+' :: rest => (digitsVal rest).map (fun n => (n : ℤ))
  | cs => (digitsVal cs).map (fun n => (n : ℤ))

/-- Split a character list at the first dot, if any. -/
def splitDot : List Char → List Char × Option (List Char)
  | [] => ([], Option.none)
  | c :: cs =>
    if c == '.' then ([], Option.some cs)
    else
      let r := splitDot cs
      (c :: r.1, r.2)

/-- Parse an unsigned decimal float literal: digits, optionally with one
dot, at least one digit overall.  The value of the literal ip.fp is the
fraction (ip * 10 ^ n + fp) / 10 ^ n where n is the number of fractional
digits. -/
def parseUnsignedFloat (cs : List Char) : Option ℚ :=
  match splitDot cs with
  | (_, Option.none) => (digitsVal cs).map (fun n => (n : ℚ))
  | (ip, Option.some fp) =>
    if fp.any (fun c => c == '.') then Option.none
    else if ip.isEmpty && fp.isEmpty then Option.none
    else if ip.all Char.isDigit && fp.all Char.isDigit then
      Option.some (mkRat (digitsNat ip * 10 ^ fp.length + digitsNat fp : ℕ) (10 ^ fp.length))
    else Option.none

/-- Python float(s) on a string: optional sign and a decimal literal
(exponent, inf and nan forms abstracted away; no claim uses them). -/
def parseFloatStr (s : String) : Option ℚ :=
  match (stripStr s).toList with
  | '-' :: rest => (parseUnsignedFloat rest).map (fun q => -q)
  | '+' :: rest => parseUnsignedFloat rest
  | cs => parseUnsignedFloat cs

/-- Exceptions the embedded code can raise: TypeError and ValueError from
numeric conversions, KeyError from dictionary access in main. -/
inductive PyErr
  | typeError
  | valueError
  | keyError
deriving DecidableEq

/-- Python float(x) on a cell value: numbers pass through, strings are
parsed (ValueError on failure), None raises TypeError. -/
def pyFloat : Cell → Except PyErr ℚ
  | Cell.none => Except.error PyErr.typeError
  | Cell.num q => Except.ok q
  | Cell.str s =>
    match parseFloatStr s with
    | Option.some q => Except.ok q
    | Option.none => Except.error PyErr.valueError

/-- Truncation toward zero, the behaviour of Python int() on a float. -/
def truncRat (q : ℚ) : ℤ := q.num.tdiv (q.den : ℤ)

/-- Python int(x) on a cell value: numbers truncate toward zero, strings
must be integer literals (ValueError otherwise), None raises TypeError. -/
def pyInt : Cell → Except PyErr ℤ
  | Cell.none => Except.error PyErr.typeError
  | Cell.num q => Except.ok (truncRat q)
  | Cell.str s =>
    match parseIntStr s with
    | Option.some n => Except.ok n
    | Option.none => Except.error PyErr.valueError

/-- Whether an embedded computation succeeded. -/
def isOkE {α : Type} : Except PyErr α → Bool
  | Except.ok _ => true
  | Except.error _ => false

/-- The first six cells of a sheet row, the only columns the source
indexes (row[0] .. row[5]). -/
structure Row where
  c0 : Cell
  c1 : Cell
  c2 : Cell
  c3 : Cell
  c4 : Cell
  c5 : Cell
deriving DecidableEq

/-- An all-empty row. -/
def blankRow : Row := ⟨Cell.none, Cell.none, Cell.none, Cell.none, Cell.none, Cell.none⟩

/-- The workbook: the three sheets the source reads, each optionally
present (membership in wb.sheetnames), with its rows (row 1 first). -/
structure Workbook where
  driversEstimates : Option (List Row)
  points : Option (List Row)
  feesCosts : Option (List Row)
deriving DecidableEq

/-- Rows yielded by sheet.iter_rows(min_row=a, max_row=b,
values_only=True): the inclusive row range a..b. -/
def rowRange (rows : List Row) (a b : ℕ) : List Row :=
  (rows.drop (a - 1)).take (b + 1 - a)

/-- The summary section: the eleven numeric figures of source lines
78-90.  The source represents an absent summary as an empty dict; we use
Option Summary, with Option.none for the empty dict. -/
structure Summary where
  investmentLow : ℚ
  investmentAvg : ℚ
  investmentHigh : ℚ
  weeksLow : ℚ
  weeksAvg : ℚ
  weeksHigh : ℚ
  sprintsLow : ℚ
  sprintsAvg : ℚ
  sprintsHigh : ℚ
  targetVelocity : ℚ
  blendedRate : ℚ
deriving DecidableEq

/-- The hardcoded summary defaults (source lines 78-90). -/
def defaultSummary : Summary :=
  { investmentLow := 260000
    investmentAvg := 300000
    investmentHigh := 370000
    weeksLow := 10
    weeksAvg := 12
    weeksHigh := 14
    sprintsLow := 5
    sprintsAvg := 6
    sprintsHigh := 7
    targetVelocity := 60
    blendedRate := 108.38 }

/-- One phase entry (source lines 107-111). -/
structure Phase where
  pointsLow : ℤ
  pointsHigh : ℤ
  features : ℤ
deriving DecidableEq

/-- The totals section (source lines 212-216). -/
structure Totals where
  pointsLow : ℤ
  pointsHigh : ℤ
  totalFeatures : ℤ
deriving DecidableEq

/-- One staffing entry (source lines 124-128). -/
structure Staff where
  role : String
  fte : ℚ
  costRate : ℚ
deriving DecidableEq

/-- The static business case constants (source lines 134-148). -/
structure BusinessCase where
  currentDSO : ℚ
  targetDSOReduction : ℚ
  receivables : ℚ
  dailySalesRate : ℚ
  workingCapitalFreed : ℚ
  costOfCapital : ℚ
  annualCapitalSavings : ℚ
  vendorInquiryFTEs : ℚ
  deflectionRateTarget : ℚ
  apTimeSavingsTarget : ℚ
  invoiceCycleCurrentDays : ℚ
  invoiceCycleTargetDays : ℚ
  aiAccuracyTarget : ℚ
deriving DecidableEq

/-- The static value projection constants (source lines 151-159). -/
structure ValueProjections where
  workingCapitalValue : ℚ
  apProductivityValue : ℚ
  processAccelerationValue : ℚ
  totalYear1Value : ℚ
  totalYear2Value : ℚ
  paybackMonths : ℚ
  threeYearROI : ℚ
deriving DecidableEq

/-- One timeline phase (source lines 164-167). -/
structure TimelinePhase where
  name : String
  weeks : String
  description : String
deriving DecidableEq

/-- One timeline milestone (source lines 170-175). -/
structure Milestone where
  date : String
  event : String
deriving DecidableEq

/-- The static timeline section (source lines 162-177). -/
structure Timeline where
  phases : List TimelinePhase
  milestones : List Milestone
deriving DecidableEq

/-- One target of a use case (source lines 187-191). -/
structure Target where
  metric : String
  value : String
deriving DecidableEq

/-- One use case record (source lines 180-205). -/
structure UseCase where
  id : ℕ
  name : String
  type : String
  challenge : String
  solution : String
  targets : List Target
deriving DecidableEq

/-- The ROM data document returned by extract_rom_data, without the meta
section (see the header comment).  phases is the Python dict in insertion
order; team is always the empty list, its element type never being
constructed by any code path. -/
structure RomData where
  summary : Option Summary
  team : List Unit
  phases : List (String × Phase)
  totals : Option Totals
  businessCase : BusinessCase
  valueProjections : ValueProjections
  timeline : Timeline
  useCases : List UseCase
  staffing : List Staff
deriving DecidableEq

/-- The business case constants of source lines 134-148, verbatim. -/
def businessCaseConst : BusinessCase :=
  { currentDSO := 60
    targetDSOReduction := 10
    receivables := 70000000
    dailySalesRate := 1166667
    workingCapitalFreed := 11666670
    costOfCapital := 0.035
    annualCapitalSavings := 408333
    vendorInquiryFTEs := 15
    deflectionRateTarget := 0.65
    apTimeSavingsTarget := 0.25
    invoiceCycleCurrentDays := 5
    invoiceCycleTargetDays := 2
    aiAccuracyTarget := 0.80 }

/-- The value projection constants of source lines 151-159, verbatim. -/
def valueProjectionsConst : ValueProjections :=
  { workingCapitalValue := 400000
    apProductivityValue := 180000
    processAccelerationValue := 70000
    totalYear1Value := 650000
    totalYear2Value := 850000
    paybackMonths := 5
    threeYearROI := 5.5 }

/-- The timeline constants of source lines 162-177, verbatim. -/
def timelineConst : Timeline :=
  { phases := [
      ⟨"Discovery & Setup", "1-2", "Kickoff, data source identification, environment setup"⟩,
      ⟨"AI Development", "3-5", "SAP integration, AI model configuration, prompt engineering"⟩,
      ⟨"UI & Testing", "6-8", "Power Apps interface, workflow testing, UAT"⟩,
      ⟨"Live Pilot", "9-12", "Process 100+ invoices, measure results, prepare recommendations"⟩]
    milestones := [
      ⟨"February 2026", "Scope & budget alignment"⟩,
      ⟨"End of February", "MSA terms complete"⟩,
      ⟨"Early March", "SOW delivered"⟩,
      ⟨"Mid-March", "Finalize agreements"⟩,
      ⟨"April 6", "Project kick-off"⟩,
      ⟨"Late June", "Pilot live"⟩] }

/-- The use case constants of source lines 180-205, verbatim. -/
def useCasesConst : List UseCase :=
  [⟨1, "AI Vendor Communication Bot", "Quick Win",
     "Vendor inquiries take 2-3 days via portal or 5-10 days via email",
     "AI-powered chatbot handling invoice status and payment queries in real-time",
     [⟨"Deflection rate", "60-70%"⟩,
      ⟨"Response time", "< 5 minutes"⟩,
      ⟨"AP time savings", "20-30%"⟩]⟩,
   ⟨2, "Order-to-Cash AI Automation", "Strategic Win",
     "$70M trapped in receivables, 60-day DSO due to ECN delays",
     "AI identifies ECNs, calculates pricing impact, generates invoice drafts",
     [⟨"Invoice cycle time", "30-40% reduction"⟩,
      ⟨"AI accuracy", "80%+ vs manual"⟩,
      ⟨"Working capital", "Faster unlock"⟩]⟩]

/-- Whether a row of the Drivers sheet triggers the velocity branch:
row[0] truthy and the substring velocity in str(row[0]).lower()
(source line 94). -/
def velocityRowMatches (r : Row) : Bool :=
  truthy r.c0 && strHas (lowerStr (cellStr r.c0)) "velocity"

/-- One iteration of the velocity scan (source lines 93-98): on a
matching row, inside try, assign float(row[5]) if row[5] else 60; a
raised conversion error is swallowed and the previous value kept. -/
def velocityStep (tv : ℚ) (r : Row) : ℚ :=
  if velocityRowMatches r then
    if truthy r.c5 then
      match pyFloat r.c5 with
      | Except.ok v => v
      | Except.error _ => tv
    else 60
  else tv

/-- The velocity scan loop over the given rows, threading the current
targetVelocity value. -/
def scanVelocityFrom : ℚ → List Row → ℚ
  | tv, [] => tv
  | tv, r :: rs => scanVelocityFrom (velocityStep tv r) rs

/-- Row qualification of the Points scan (source line 105):
row[0] truthy and row[1] is not None. -/
def pointsRowQualifies (r : Row) : Bool :=
  truthy r.c0 && !(decide (r.c1 = Cell.none))

/-- Phase name normalization (source line 106): spaces and ampersands
removed from str(row[0]). -/
def normPhase (s : String) : String :=
  removeChar '&' (removeChar ' ' s)

/-- The expression int(x) if x else 0 of source lines 108-110. -/
def intOrZero (c : Cell) : Except PyErr ℤ :=
  if truthy c then pyInt c else Except.ok 0

/-- The expression float(x) if x else 0 of source lines 126-127. -/
def floatOrZero (c : Cell) : Except PyErr ℚ :=
  if truthy c then pyFloat c else Except.ok 0

/-- Assignment phases[k] = v on the insertion-ordered Python dict: an
existing key is updated in place, a new key is appended. -/
def dictInsert (ps : List (String × Phase)) (k : String) (v : Phase) : List (String × Phase) :=
  if ps.any (fun p => decide (p.1 = k)) then
    ps.map (fun p => if p.1 = k then (k, v) else p)
  else ps ++ [(k, v)]

/-- One iteration of the Points scan (source lines 104-111).  The three
conversions are unguarded in the source: a failure propagates. -/
def pointsStep (acc : List (String × Phase)) (r : Row) : Except PyErr (List (String × Phase)) :=
  if pointsRowQualifies r then
    match intOrZero r.c1 with
    | Except.error e => Except.error e
    | Except.ok pl =>
      match intOrZero r.c2 with
      | Except.error e => Except.error e
      | Except.ok ph =>
        match intOrZero r.c3 with
        | Except.error e => Except.error e
        | Except.ok ft =>
          Except.ok (dictInsert acc (normPhase (cellStr r.c0)) ⟨pl, ph, ft⟩)
  else Except.ok acc

/-- The Points scan loop over the given rows. -/
def scanPointsFrom : List (String × Phase) → List Row → Except PyErr (List (String × Phase))
  | acc, [] => Except.ok acc
  | acc, r :: rs =>
    match pointsStep acc r with
    | Except.error e => Except.error e
    | Except.ok acc2 => scanPointsFrom acc2 rs

/-- Row qualification of the Fees scan (source line 121): row[0] truthy,
row[1] truthy, and total not a substring of str(row[0]).lower(). -/
def feesRowQualifies (r : Row) : Bool :=
  truthy r.c0 && truthy r.c1 && !(strHas (lowerStr (cellStr r.c0)) "total")

/-- The stripped role string of a Fees row (source line 122). -/
def roleOf (r : Row) : String := stripStr (cellStr r.c0)

/-- The role filter of source line 123: role truthy and not the literal
placeholder. -/
def roleAccepted (role : String) : Bool :=
  !(decide (role = "")) && !(decide (role = "Add rows as necessary"))

/-- One iteration of the Fees scan (source lines 120-128).  The two
conversions are unguarded in the source: a failure propagates. -/
def feesStep (acc : List Staff) (r : Row) : Except PyErr (List Staff) :=
  if feesRowQualifies r then
    if roleAccepted (roleOf r) then
      match floatOrZero r.c1 with
      | Except.error e => Except.error e
      | Except.ok fte =>
        match floatOrZero r.c2 with
        | Except.error e => Except.error e
        | Except.ok cr => Except.ok (acc ++ [⟨roleOf r, fte, cr⟩])
    else Except.ok acc
  else Except.ok acc

/-- The Fees scan loop over the given rows. -/
def scanFeesFrom : List Staff → List Row → Except PyErr (List Staff)
  | acc, [] => Except.ok acc
  | acc, r :: rs =>
    match feesStep acc r with
    | Except.error e => Except.error e
    | Except.ok acc2 => scanFeesFrom acc2 rs

/-- The summary section of the result (source lines 76-98): the empty
dict when the Drivers sheet is absent; otherwise the hardcoded defaults
with targetVelocity as left by the velocity scan of rows 1-20. -/
def summaryPart (wb : Workbook) : Option Summary :=
  match wb.driversEstimates with
  | Option.none => Option.none
  | Option.some rows =>
    Option.some { defaultSummary with targetVelocity := scanVelocityFrom 60 (rowRange rows 1 20) }

/-- The phases section of the result (source lines 100-113): empty when
the Points sheet is absent; otherwise the scan of rows 2-10. -/
def phasesPart (wb : Workbook) : Except PyErr (List (String × Phase)) :=
  match wb.points with
  | Option.none => Except.ok []
  | Option.some rows => scanPointsFrom [] (rowRange rows 2 10)

/-- The staffing section of the result (source lines 115-131): empty
when the Fees sheet is absent; otherwise the scan of rows 10-25. -/
def staffingPart (wb : Workbook) : Except PyErr (List Staff) :=
  match wb.feesCosts with
  | Option.none => Except.ok []
  | Option.some rows => scanFeesFrom [] (rowRange rows 10 25)

/-- Sum of a field over the phase entries, embedding the generator sums
of source lines 209-211. -/
def sumBy (f : Phase → ℤ) (ps : List (String × Phase)) : ℤ :=
  ps.foldl (fun a p => a + f p.2) 0

/-- The totals section (source lines 207-216): assigned only when phases
is nonempty, as the three field sums. -/
def totalsOf (ps : List (String × Phase)) : Option Totals :=
  if ps.isEmpty then Option.none
  else
    Option.some
      ⟨sumBy (fun p => p.pointsLow) ps, sumBy (fun p => p.pointsHigh) ps,
        sumBy (fun p => p.features) ps⟩

/-- Assembly of the returned document: the initialization of source
lines 56-73 together with the section assignments that survive to the
return (static sections from lines 134-205, totals from lines 207-216). -/
def mkDoc (s : Option Summary) (ps : List (String × Phase)) (st : List Staff) : RomData :=
  ⟨s, [], ps, totalsOf ps, businessCaseConst, valueProjectionsConst, timelineConst,
    useCasesConst, st⟩

/-- The extraction procedure extract_rom_data (source lines 50-218).
The summary section cannot fail (its conversions sit inside try/except);
the Points scan and then the Fees scan can raise, in that order. -/
def extract_rom_data (wb : Workbook) : Except PyErr RomData :=
  match phasesPart wb with
  | Except.error e => Except.error e
  | Except.ok ps =>
    match staffingPart wb with
    | Except.error e => Except.error e
    | Except.ok st => Except.ok (mkDoc (summaryPart wb) ps st)

/-- Outcome of one run of the program. -/
inductive RunResult
  | usageExit
  | errorBeforeOutput (e : PyErr)
  | success (doc : RomData)
  | errorAfterOutput (doc : RomData) (e : PyErr)
deriving DecidableEq

/-- Whether the outcome wrote the output file data/rom-data.json, that
is, whether save_json ran to completion before the run ended. -/
def RunResult.wroteOutput : RunResult → Bool
  | RunResult.usageExit => false
  | RunResult.errorBeforeOutput _ => false
  | RunResult.success _ => true
  | RunResult.errorAfterOutput _ _ => true

/-- Whether the outcome terminates the process with a nonzero exit code
(sys.exit(1), or an uncaught exception). -/
def RunResult.exitsNonzero : RunResult → Bool
  | RunResult.usageExit => true
  | RunResult.errorBeforeOutput _ => true
  | RunResult.success _ => false
  | RunResult.errorAfterOutput _ _ => true

/-- Path resolution of source lines 231-234: the explicit argument if
given, else the result of the source locator find_rom_file. -/
def resolvePath (argPath located : Option String) : Option String :=
  match argPath with
  | Option.some p => Option.some p
  | Option.none => located

/-- The final report of source lines 249-260: it reads
summary[investmentAvg] and summary[weeksAvg], raising KeyError when the
summary dict is empty; the other keys read are always present. -/
def printFinal (d : RomData) : Except PyErr Unit :=
  match d.summary with
  | Option.some _ => Except.ok ()
  | Option.none => Except.error PyErr.keyError

/-- The driver main (source lines 229-260).  usageExit is the
Error print plus sys.exit(1) of lines 236-239; an extraction error ends
the run before save_json; otherwise save_json writes the file and the
final report then either completes or raises. -/
def main_model (argPath located : Option String) (fileExists : String → Bool)
    (workbookAt : String → Workbook) : RunResult :=
  match resolvePath argPath located with
  | Option.none => RunResult.usageExit
  | Option.some p =>
    if fileExists p then
      match extract_rom_data (workbookAt p) with
      | Except.error e => RunResult.errorBeforeOutput e
      | Except.ok d =>
        match printFinal d with
        | Except.ok _ => RunResult.success d
        | Except.error e => RunResult.errorAfterOutput d e
    else RunResult.usageExit

/-- Effect of one matching velocity row, claim side: Option.some v when
the row assigns v to targetVelocity (its 6th cell truthy and parseable,
or 60 when the cell is falsy), Option.none when the row does not assign
(no match, or the conversion raised and was swallowed). -/
def velocityAssignment (r : Row) : Option ℚ :=
  if velocityRowMatches r then
    if truthy r.c5 then (pyFloat r.c5).toOption
    else Option.some 60
  else Option.none

/-- The targetVelocity value left by scanning the given sheet, claim
side: the last successful assignment wins, 60 when there is none. -/
def velocitySpec (rows : List Row) : ℚ :=
  (((rowRange rows 1 20).filterMap velocityAssignment).getLast?).getD 60

/-- Total version of the int(x) if x else 0 coercion (defined only when
the conversion succeeds; used under a safety hypothesis). -/
def intDef (c : Cell) : ℤ :=
  if truthy c then ((pyInt c).toOption).getD 0 else 0

/-- Total version of the float(x) if x else 0 coercion. -/
def floatDef (c : Cell) : ℚ :=
  if truthy c then ((pyFloat c).toOption).getD 0 else 0

/-- Pure effect of one row of the Points scan (matches pointsStep when
its conversions succeed). -/
def pointsPure (acc : List (String × Phase)) (r : Row) : List (String × Phase) :=
  if pointsRowQualifies r then
    dictInsert acc (normPhase (cellStr r.c0)) ⟨intDef r.c1, intDef r.c2, intDef r.c3⟩
  else acc

/-- The phases mapping harvested from a Points sheet, claim side. -/
def phasesSpec (rows : List Row) : List (String × Phase) :=
  (rowRange rows 2 10).foldl pointsPure []

/-- Pure effect of one row of the Fees scan. -/
def feesPure (acc : List Staff) (r : Row) : List Staff :=
  if feesRowQualifies r then
    if roleAccepted (roleOf r) then
      acc ++ [⟨roleOf r, floatDef r.c1, floatDef r.c2⟩]
    else acc
  else acc

/-- The staffing entry contributed by one Fees row, claim side. -/
def staffEntry (r : Row) : Option Staff :=
  if feesRowQualifies r && roleAccepted (roleOf r) then
    Option.some ⟨roleOf r, floatDef r.c1, floatDef r.c2⟩
  else Option.none

/-- The staffing list harvested from a Fees sheet, claim side: the rows
of the scanned range that qualify, in row order. -/
def staffingSpec (rows : List Row) : List Staff :=
  (rowRange rows 10 25).filterMap staffEntry

/-- A cell on which the int(x) if x else 0 coercion cannot raise. -/
def cellIntSafe (c : Cell) : Bool := !truthy c || isOkE (pyInt c)

/-- A cell on which the float(x) if x else 0 coercion cannot raise. -/
def cellFloatSafe (c : Cell) : Bool := !truthy c || isOkE (pyFloat c)

/-- A Points row on which pointsStep cannot raise. -/
def pointsRowSafe (r : Row) : Bool :=
  !pointsRowQualifies r || (cellIntSafe r.c1 && cellIntSafe r.c2 && cellIntSafe r.c3)

/-- A Fees row on which feesStep cannot raise. -/
def feesRowSafe (r : Row) : Bool :=
  !(feesRowQualifies r && roleAccepted (roleOf r)) || (cellFloatSafe r.c1 && cellFloatSafe r.c2)

/-- Whether every scanned row of the Points sheet, if present, is safe. -/
def pointsSheetSafe (wb : Workbook) : Bool :=
  match wb.points with
  | Option.none => true
  | Option.some rows => (rowRange rows 2 10).all pointsRowSafe

/-- Whether every scanned row of the Fees sheet, if present, is safe. -/
def feesSheetSafe (wb : Workbook) : Bool :=
  match wb.feesCosts with
  | Option.none => true
  | Option.some rows => (rowRange rows 10 25).all feesRowSafe

/-- A workbook with none of the three recognized sheets. -/
def wbNoSheets : Workbook := ⟨Option.none, Option.none, Option.none⟩

/-- Drivers sheet with one velocity row assigning 75 (the worked example
of the spec). -/
def driversDemoRows : List Row :=
  [⟨Cell.str "Target Velocity", Cell.none, Cell.none, Cell.none, Cell.none, Cell.num 75⟩]

/-- Points sheet whose rows 2 and 3 are the two worked-example phase
rows of the spec. -/
def pointsDemoRows : List Row :=
  [blankRow,
   ⟨Cell.str "Phase One", Cell.num 10, Cell.num 20, Cell.num 3, Cell.none, Cell.none⟩,
   ⟨Cell.str "Phase & Two", Cell.num 5, Cell.num 8, Cell.num 2, Cell.none, Cell.none⟩]

/-- Fees sheet whose rows 10-12 are the three worked-example staffing
rows of the spec (85.5 written as the rational 171/2). -/
def feesDemoRows : List Row :=
  List.replicate 9 blankRow ++
  [⟨Cell.str "Total Staff", Cell.num 10, Cell.num 100, Cell.none, Cell.none, Cell.none⟩,
   ⟨Cell.str "Add rows as necessary", Cell.num 0, Cell.num 0, Cell.none, Cell.none, Cell.none⟩,
   ⟨Cell.str "Analyst", Cell.num 2, Cell.num (mkRat 171 2), Cell.none, Cell.none, Cell.none⟩]

/-- A workbook carrying all three demo sheets. -/
def wbDemo : Workbook :=
  ⟨Option.some driversDemoRows, Option.some pointsDemoRows, Option.some feesDemoRows⟩

/-- The document extract_rom_data produces on wbDemo. -/
def demoDoc : RomData :=
  mkDoc (Option.some { defaultSummary with targetVelocity := 75 })
    [("PhaseOne", ⟨10, 20, 3⟩), ("PhaseTwo", ⟨5, 8, 2⟩)]
    [⟨"Analyst", 2, mkRat 171 2⟩]

/-- A workbook whose Points sheet has, in the scanned range, a row with
a truthy name and a truthy non-numeric low-points string cell. -/
def wbBadPoints : Workbook :=
  ⟨Option.none,
   Option.some [blankRow, ⟨Cell.str "A", Cell.str "x", Cell.none, Cell.none, Cell.none, Cell.none⟩],
   Option.none⟩

/-- A workbook whose Fees sheet row 10 has a role cell, a zero (falsy)
second cell, and a cost rate. -/
def wbFeesZeroFte : Workbook :=
  ⟨Option.none, Option.none,
   Option.some (List.replicate 9 blankRow ++
     [⟨Cell.str "Analyst", Cell.num 0, Cell.num (mkRat 171 2), Cell.none, Cell.none, Cell.none⟩])⟩

/-- A Drivers sheet with two matching velocity rows: the first assigns
75, the second has a truthy non-numeric 6th cell. -/
def wbVelTwoRows : Workbook :=
  ⟨Option.some
     [⟨Cell.str "Target Velocity", Cell.none, Cell.none, Cell.none, Cell.none, Cell.num 75⟩,
      ⟨Cell.str "Sprint velocity", Cell.none, Cell.none, Cell.none, Cell.none, Cell.str "abc"⟩],
   Option.none, Option.none⟩

/-- A workbook whose Points sheet row 2 has the numeric value 0 as its
name cell (non-null, falsy) and non-null point cells. -/
def wbPointsZeroName : Workbook :=
  ⟨Option.none,
   Option.some [blankRow, ⟨Cell.num 0, Cell.num 5, Cell.num 6, Cell.num 7, Cell.none, Cell.none⟩],
   Option.none⟩

/-- A Drivers sheet with one matching velocity row whose 6th cell is the
numeric value 0. -/
def velZeroRow : Row :=
  ⟨Cell.str "Target Velocity", Cell.none, Cell.none, Cell.none, Cell.none, Cell.num 0⟩

/-- The workbook holding only that zero-velocity row. -/
def wbVelZero : Workbook := ⟨Option.some [velZeroRow], Option.none, Option.none⟩

/-- A Drivers sheet whose zero-velocity row is followed by a second
matching row assigning 75. -/
def wbVelZeroThen : Workbook :=
  ⟨Option.some
     [velZeroRow,
      ⟨Cell.str "Sprint velocity", Cell.none, Cell.none, Cell.none, Cell.none, Cell.num 75⟩],
   Option.none, Option.none⟩

/-- A file-exists oracle that affirms every path. -/
def everyPathExists : String → Bool := fun _ => true

/-- A file-exists oracle that denies every path. -/
def noPathExists : String → Bool := fun _ => false

/-- A workbook reader yielding the sheetless workbook at every path. -/
def wbNoSheetsAt : String → Workbook := fun _ => wbNoSheets

/-- A workbook reader yielding the demo workbook at every path. -/
def wbDemoAt : String → Workbook := fun _ => wbDemo

/-- Inversion of a successful extraction: the document is the assembly
of the three section results. -/
theorem extract_inv (wb : Workbook) (d : RomData)
    (h : extract_rom_data wb = Except.ok d) :
    ∃ ps st, phasesPart wb = Except.ok ps ∧ staffingPart wb = Except.ok st ∧
      d = mkDoc (summaryPart wb) ps st := by
  unfold extract_rom_data at h
  cases hp : phasesPart wb with
  | error e => rw [hp] at h; cases h
  | ok ps =>
    rw [hp] at h
    cases hs : staffingPart wb with
    | error e => rw [hs] at h; cases h
    | ok st =>
      rw [hs] at h
      cases h
      exact ⟨ps, st, rfl, rfl, rfl⟩

/-- Under safety, the guarded int coercion succeeds with its total
value. -/
theorem intOrZero_eq_of_safe (c : Cell) (h : cellIntSafe c = true) :
    intOrZero c = Except.ok (intDef c) := by
  unfold cellIntSafe at h
  unfold intOrZero intDef
  cases ht : truthy c with
  | false => simp
  | true =>
    rw [ht] at h
    simp only [Bool.not_true, Bool.false_or] at h
    simp only [if_true]
    cases hp : pyInt c with
    | ok n => simp [hp, Except.toOption]
    | error e => rw [hp] at h; simp [isOkE] at h

/-- Under safety, the guarded float coercion succeeds with its total
value. -/
theorem floatOrZero_eq_of_safe (c : Cell) (h : cellFloatSafe c = true) :
    floatOrZero c = Except.ok (floatDef c) := by
  unfold cellFloatSafe at h
  unfold floatOrZero floatDef
  cases ht : truthy c with
  | false => simp
  | true =>
    rw [ht] at h
    simp only [Bool.not_true, Bool.false_or] at h
    simp only [if_true]
    cases hp : pyFloat c with
    | ok q => simp [hp, Except.toOption]
    | error e => rw [hp] at h; simp [isOkE] at h

/-- On a safe row, the Points step succeeds with its pure effect. -/
theorem pointsStep_eq_of_safe (acc : List (String × Phase)) (r : Row)
    (h : pointsRowSafe r = true) :
    pointsStep acc r = Except.ok (pointsPure acc r) := by
  unfold pointsRowSafe at h
  unfold pointsStep pointsPure
  cases hq : pointsRowQualifies r with
  | false => simp [hq]
  | true =>
    rw [hq] at h
    simp only [Bool.not_true, Bool.false_or, Bool.and_eq_true] at h
    obtain ⟨⟨h1, h2⟩, h3⟩ := h
    rw [intOrZero_eq_of_safe r.c1 h1, intOrZero_eq_of_safe r.c2 h2,
      intOrZero_eq_of_safe r.c3 h3]
    simp [hq]

/-- On a safe row, the Fees step succeeds with its pure effect. -/
theorem feesStep_eq_of_safe (acc : List Staff) (r : Row)
    (h : feesRowSafe r = true) :
    feesStep acc r = Except.ok (feesPure acc r) := by
  unfold feesRowSafe at h
  unfold feesStep feesPure
  cases hq : feesRowQualifies r with
  | false => simp [hq]
  | true =>
    cases ha : roleAccepted (roleOf r) with
    | false => simp [hq, ha]
    | true =>
      rw [hq, ha] at h
      simp only [Bool.and_true, Bool.not_true, Bool.false_or, Bool.and_eq_true] at h
      rw [floatOrZero_eq_of_safe r.c1 h.1, floatOrZero_eq_of_safe r.c2 h.2]
      simp [hq, ha]

/-- On an all-safe row list, the Points scan succeeds with the pure
fold. -/
theorem scanPointsFrom_eq_of_safe (rows : List Row) :
    ∀ acc, rows.all pointsRowSafe = true →
      scanPointsFrom acc rows = Except.ok (rows.foldl pointsPure acc) := by
  induction rows with
  | nil => intro acc _; rfl
  | cons r rs ih =>
    intro acc h
    simp only [List.all_cons, Bool.and_eq_true] at h
    unfold scanPointsFrom
    rw [pointsStep_eq_of_safe acc r h.1]
    simp only [List.foldl_cons]
    exact ih _ h.2

/-- On an all-safe row list, the Fees scan succeeds with the pure
fold. -/
theorem scanFeesFrom_eq_of_safe (rows : List Row) :
    ∀ acc, rows.all feesRowSafe = true →
      scanFeesFrom acc rows = Except.ok (rows.foldl feesPure acc) := by
  induction rows with
  | nil => intro acc _; rfl
  | cons r rs ih =>
    intro acc h
    simp only [List.all_cons, Bool.and_eq_true] at h
    unfold scanFeesFrom
    rw [feesStep_eq_of_safe acc r h.1]
    simp only [List.foldl_cons]
    exact ih _ h.2

/-- The pure Fees fold appends exactly the qualifying entries in row
order. -/
theorem foldl_feesPure_filterMap (rows : List Row) :
    ∀ acc, rows.foldl feesPure acc = acc ++ rows.filterMap staffEntry := by
  induction rows with
  | nil => intro acc; simp
  | cons r rs ih =>
    intro acc
    simp only [List.foldl_cons, List.filterMap_cons]
    cases hq : feesRowQualifies r with
    | false =>
      have he : staffEntry r = Option.none := by simp [staffEntry, hq]
      have hp : feesPure acc r = acc := by simp [feesPure, hq]
      rw [he, hp, ih]
    | true =>
      cases ha : roleAccepted (roleOf r) with
      | false =>
        have he : staffEntry r = Option.none := by simp [staffEntry, hq, ha]
        have hp : feesPure acc r = acc := by simp [feesPure, hq, ha]
        rw [he, hp, ih]
      | true =>
        have he : staffEntry r = Option.some ⟨roleOf r, floatDef r.c1, floatDef r.c2⟩ := by
          simp [staffEntry, hq, ha]
        have hp : feesPure acc r = acc ++ [⟨roleOf r, floatDef r.c1, floatDef r.c2⟩] := by
          simp [feesPure, hq, ha]
        rw [he, hp, ih]
        simp

/-- One velocity step is the claim-side assignment with the previous
value as fallback. -/
theorem velocityStep_eq (tv : ℚ) (r : Row) :
    velocityStep tv r = (velocityAssignment r).getD tv := by
  unfold velocityStep velocityAssignment
  cases hm : velocityRowMatches r with
  | false => simp
  | true =>
    cases ht : truthy r.c5 with
    | false => simp
    | true =>
      cases hp : pyFloat r.c5 with
      | ok v => simp [hp, Except.toOption]
      | error e => simp [hp, Except.toOption]

/-- Prepending a value to the assignment list shifts the fallback of the
last-value read. -/
theorem getLastD_cons (v tv : ℚ) (l : List ℚ) :
    ((v :: l).getLast?).getD tv = (l.getLast?).getD v := by
  cases l with
  | nil => rfl
  | cons w ws =>
    cases hl : (w :: ws).getLast? with
    | none => simp at hl
    | some x => simp [List.getLast?_cons_cons, hl]

/-- The velocity scan computes the last successful assignment of the row
list, with the initial value as fallback. -/
theorem scanVelocityFrom_eq (rows : List Row) :
    ∀ tv, scanVelocityFrom tv rows = ((rows.filterMap velocityAssignment).getLast?).getD tv := by
  induction rows with
  | nil => intro tv; rfl
  | cons r rs ih =>
    intro tv
    unfold scanVelocityFrom
    rw [ih, velocityStep_eq]
    cases ha : velocityAssignment r with
    | none => simp [List.filterMap_cons, ha]
    | some v => simp [List.filterMap_cons, ha, getLastD_cons]

/-- Appending row lists composes the velocity scan. -/
theorem scanVelocityFrom_append (l1 l2 : List Row) :
    ∀ tv, scanVelocityFrom tv (l1 ++ l2) = scanVelocityFrom (scanVelocityFrom tv l1) l2 := by
  induction l1 with
  | nil => intro tv; rfl
  | cons r rs ih =>
    intro tv
    simp only [List.cons_append]
    show scanVelocityFrom (velocityStep tv r) (rs ++ l2) =
      scanVelocityFrom (scanVelocityFrom (velocityStep tv r) rs) l2
    exact ih _

/-- Rows with no velocity match leave the scanned value unchanged. -/
theorem scanVelocityFrom_no_match (l : List Row) :
    ∀ tv, l.all (fun x => !velocityRowMatches x) = true → scanVelocityFrom tv l = tv := by
  induction l with
  | nil => intro tv _; rfl
  | cons r rs ih =>
    intro tv h
    simp only [List.all_cons, Bool.and_eq_true, Bool.not_eq_true'] at h
    unfold scanVelocityFrom
    have hs : velocityStep tv r = tv := by simp [velocityStep, h.1]
    rw [hs]
    exact ih tv (by simpa using h.2)

/-- Keys after a dict assignment: unchanged for an existing key,
appended for a new one. -/
theorem dictInsert_keys (ps : List (String × Phase)) (k : String) (v : Phase) :
    (dictInsert ps k v).map Prod.fst =
      if ps.any (fun p => decide (p.1 = k)) then ps.map Prod.fst
      else ps.map Prod.fst ++ [k] := by
  unfold dictInsert
  cases hmem : ps.any (fun p => decide (p.1 = k)) with
  | false => simp
  | true =>
    simp only [if_true]
    rw [List.map_map]
    apply List.map_congr_left
    intro p _
    by_cases hp : p.1 = k
    · simp [hp]
    · simp [hp]

/-- A dict assignment preserves uniqueness of the keys. -/
theorem dictInsert_nodup (ps : List (String × Phase)) (k : String) (v : Phase)
    (h : (ps.map Prod.fst).Nodup) : ((dictInsert ps k v).map Prod.fst).Nodup := by
  rw [dictInsert_keys]
  cases hmem : ps.any (fun p => decide (p.1 = k)) with
  | true => simpa using h
  | false =>
    simp only [Bool.false_eq_true, if_false]
    rw [List.nodup_append]
    refine ⟨h, List.nodup_singleton k, ?_⟩
    intro a ha hb
    simp only [List.mem_singleton] at hb
    subst hb
    simp only [List.mem_map] at ha
    obtain ⟨p, hp, hpk⟩ := ha
    have hfalse : ∀ (x : String) (b : Phase), (x, b) ∈ ps → ¬ x = a := by
      simpa using hmem
    exact hfalse p.1 p.2 hp hpk

/-- The pure Points fold preserves uniqueness of the phase keys. -/
theorem foldl_pointsPure_nodup (rows : List Row) :
    ∀ acc, (acc.map Prod.fst).Nodup → ((rows.foldl pointsPure acc).map Prod.fst).Nodup := by
  induction rows with
  | nil => intro acc h; exact h
  | cons r rs ih =>
    intro acc h
    simp only [List.foldl_cons]
    apply ih
    unfold pointsPure
    cases hq : pointsRowQualifies r with
    | false => simpa [hq] using h
    | true => simpa [hq] using dictInsert_nodup acc (normPhase (cellStr r.c0)) _ h

/-- The accumulating sum of a phase field equals the mapped list sum. -/
theorem sumBy_eq_map_sum (f : Phase → ℤ) (ps : List (String × Phase)) :
    sumBy f ps = (ps.map (fun p => f p.2)).sum := by
  unfold sumBy
  induction ps using List.reverseRecOn with
  | nil => rfl
  | append_singleton l p ih => simp [List.foldl_append, ih]

/-- Claim C1 counterexample: on a workbook with none of the three
recognized sheets, extract_rom_data returns a document whose summary is
the empty dict, not the hardcoded defaults the claim requires (the
defaults of source lines 78-90 are assigned only when the Drivers sheet
is present). -/
theorem C1_counterexample :
    extract_rom_data wbNoSheets = Except.ok (mkDoc Option.none [] []) ∧
    (mkDoc Option.none [] []).summary = Option.none ∧
    (Option.none : Option Summary) ≠ Option.some defaultSummary :=
  ⟨rfl, rfl, by simp⟩

/-- Claim C1 (amended): for every workbook in which none of the three
recognized sheet names is present, the document returned by
extract_rom_data has empty phases, empty totals, empty staffing, and an
empty summary (the hardcoded defaults are not installed). -/
theorem C1_empty_sections (wb : Workbook)
    (h1 : wb.driversEstimates = Option.none) (h2 : wb.points = Option.none)
    (h3 : wb.feesCosts = Option.none) :
    extract_rom_data wb = Except.ok (mkDoc Option.none [] []) ∧
    (mkDoc Option.none [] []).phases = [] ∧
    (mkDoc Option.none [] []).totals = Option.none ∧
    (mkDoc Option.none [] []).staffing = [] ∧
    (mkDoc Option.none [] []).summary = Option.none := by
  have e1 : phasesPart wb = Except.ok [] := by unfold phasesPart; rw [h2]
  have e2 : staffingPart wb = Except.ok [] := by unfold staffingPart; rw [h3]
  have e3 : summaryPart wb = Option.none := by unfold summaryPart; rw [h1]
  refine ⟨?_, rfl, rfl, rfl, rfl⟩
  unfold extract_rom_data
  rw [e1, e2, e3]

/-- Claim C1 witness: the amended claim evaluated on the sheetless
workbook. -/
theorem C1_empty_sections_witness :
    extract_rom_data wbNoSheets = Except.ok (mkDoc Option.none [] []) ∧
    (mkDoc Option.none [] []).phases = [] ∧
    (mkDoc Option.none [] []).totals = Option.none ∧
    (mkDoc Option.none [] []).staffing = [] ∧
    (mkDoc Option.none [] []).summary = Option.none :=
  C1_empty_sections wbNoSheets rfl rfl rfl

/-- Claim C2 counterexample: a Points row with a truthy name and a
truthy non-numeric low-points cell makes the unguarded int conversion of
source line 108 raise, and the error escapes extract_rom_data, against
the claim that no exception escapes. -/
theorem C2_counterexample :
    extract_rom_data wbBadPoints = Except.error PyErr.valueError := rfl

/-- Claim C2 (amended): falsy or missing numeric cells are replaced by
the stated defaults without error, but the silent try/except recovery
exists only in the targetVelocity extraction; in the Points and Fees
scans a truthy cell whose conversion fails raises out of
extract_rom_data.  Whenever every scanned Points and Fees cell is safe
(falsy or convertible), extraction succeeds, with no condition at all on
the Drivers sheet. -/
theorem C2_safe_cells_ok (wb : Workbook)
    (hp : pointsSheetSafe wb = true) (hf : feesSheetSafe wb = true) :
    isOkE (extract_rom_data wb) = true := by
  obtain ⟨ps, e1⟩ : ∃ ps, phasesPart wb = Except.ok ps := by
    unfold phasesPart
    cases hpt : wb.points with
    | none => exact ⟨[], rfl⟩
    | some rows =>
      unfold pointsSheetSafe at hp
      rw [hpt] at hp
      exact ⟨_, scanPointsFrom_eq_of_safe _ [] hp⟩
  obtain ⟨st, e2⟩ : ∃ st, staffingPart wb = Except.ok st := by
    unfold staffingPart
    cases hft : wb.feesCosts with
    | none => exact ⟨[], rfl⟩
    | some rows =>
      unfold feesSheetSafe at hf
      rw [hft] at hf
      exact ⟨_, scanFeesFrom_eq_of_safe _ [] hf⟩
  unfold extract_rom_data
  rw [e1, e2]
  rfl

/-- Claim C2 witness: the amended claim evaluated on the demo workbook
carrying all three sheets. -/
theorem C2_safe_cells_ok_witness : isOkE (extract_rom_data wbDemo) = true :=
  C2_safe_cells_ok wbDemo rfl rfl

/-- Claim C3 counterexample: the Fees row (Analyst, 0, 85.5) satisfies
every first-cell condition of the claim, yet the code also requires the
second cell to be truthy (source line 121) and excludes it, leaving
staffing empty instead of the single entry the claim requires. -/
theorem C3_counterexample :
    extract_rom_data wbFeesZeroFte = Except.ok (mkDoc Option.none [] []) ∧
    (mkDoc Option.none [] []).staffing = [] ∧
    ([] : List Staff) ≠ [⟨"Analyst", 0, mkRat 171 2⟩] :=
  ⟨rfl, rfl, by simp⟩

/-- Claim C3 (amended): for a workbook with a Fees sheet whose scanned
cells are safe, staffing is the ordered list over rows 10-25 of exactly
those rows whose first cell is truthy, whose second cell is also truthy
(non-null and nonzero), whose first cell does not contain the substring
total case-insensitively, and whose stripped first cell is neither empty
nor the placeholder; each yields the stripped role, the second cell as
float and the third cell as float (0 when falsy). -/
theorem C3_staffing_rows (wb : Workbook) (rows : List Row) (d : RomData)
    (hw : wb.feesCosts = Option.some rows)
    (hsafe : (rowRange rows 10 25).all feesRowSafe = true)
    (hd : extract_rom_data wb = Except.ok d) :
    d.staffing = staffingSpec rows := by
  obtain ⟨ps, st, hp, hs, hdq⟩ := extract_inv wb d hd
  subst hdq
  show st = staffingSpec rows
  have hsf : staffingPart wb = Except.ok ((rowRange rows 10 25).foldl feesPure []) := by
    unfold staffingPart
    rw [hw]
    exact scanFeesFrom_eq_of_safe _ [] hsafe
  have hok : (Except.ok st : Except PyErr (List Staff)) =
      Except.ok ((rowRange rows 10 25).foldl feesPure []) := by
    rw [← hs, hsf]
  injection hok with h
  rw [h, foldl_feesPure_filterMap]
  unfold staffingSpec
  simp

/-- Claim C3 witness: the amended claim evaluated on the demo workbook,
whose Fees rows are the worked examples of the spec. -/
theorem C3_staffing_rows_witness :
    demoDoc.staffing = staffingSpec feesDemoRows ∧
    staffingSpec feesDemoRows = [⟨"Analyst", 2, mkRat 171 2⟩] :=
  ⟨C3_staffing_rows wbDemo feesDemoRows demoDoc rfl rfl rfl, rfl⟩

/-- Claim C4 counterexample: with two matching velocity rows, the first
assigning 75 and the second holding a truthy non-numeric 6th cell, the
swallowed conversion error keeps the previous value, so targetVelocity
ends at 75, not at the 60 the claim requires of a non-numeric last
match. -/
theorem C4_counterexample :
    extract_rom_data wbVelTwoRows =
      Except.ok (mkDoc (Option.some { defaultSummary with targetVelocity := 75 }) [] []) ∧
    parseFloatStr "abc" = Option.none ∧
    velocityRowMatches
      ⟨Cell.str "Sprint velocity", Cell.none, Cell.none, Cell.none, Cell.none, Cell.str "abc"⟩
      = true ∧
    (75 : ℚ) ≠ 60 :=
  ⟨rfl, rfl, rfl, by decide⟩

/-- Claim C4 (amended): on a workbook with a Drivers sheet, a matching
velocity row among rows 1-20 assigns its 6th cell as a float when that
cell is truthy and parses, assigns 60 when that cell is falsy, and
assigns nothing when the conversion fails (the previous value is kept);
targetVelocity is the last assignment in the scanned range, 60 when no
row assigns. -/
theorem C4_velocity_last_assignment (wb : Workbook) (rows : List Row) (d : RomData)
    (hw : wb.driversEstimates = Option.some rows)
    (hd : extract_rom_data wb = Except.ok d) :
    d.summary = Option.some { defaultSummary with targetVelocity := velocitySpec rows } := by
  obtain ⟨ps, st, _, _, hdq⟩ := extract_inv wb d hd
  subst hdq
  show summaryPart wb = _
  have hsm : summaryPart wb = Option.some
      { defaultSummary with targetVelocity := scanVelocityFrom 60 (rowRange rows 1 20) } := by
    unfold summaryPart
    rw [hw]
  rw [hsm, scanVelocityFrom_eq]
  unfold velocitySpec
  rfl

/-- Claim C4 witness: the amended claim evaluated on the demo workbook
with one velocity row assigning 75. -/
theorem C4_velocity_last_assignment_witness :
    demoDoc.summary =
      Option.some { defaultSummary with targetVelocity := velocitySpec driversDemoRows } ∧
    velocitySpec driversDemoRows = 75 :=
  ⟨C4_velocity_last_assignment wbDemo driversDemoRows demoDoc rfl rfl, rfl⟩

/-- Claim C5 counterexample: a Points row whose name cell is the numeric
value 0 is non-null (as is its low-point cell), so the claim requires a
phase entry for it, but the code requires a truthy name (source line
105) and skips the row, leaving phases empty. -/
theorem C5_counterexample :
    extract_rom_data wbPointsZeroName = Except.ok (mkDoc Option.none [] []) ∧
    (mkDoc Option.none [] []).phases = [] ∧
    Cell.num 0 ≠ Cell.none ∧
    ([] : List (String × Phase)) ≠ [("0", ⟨5, 6, 7⟩)] :=
  ⟨rfl, rfl, by decide, by decide⟩

/-- Claim C5 (amended): for a workbook with a Points sheet whose scanned
cells are safe, phases maps, for each row among rows 2-10 with a truthy
name cell (non-null and neither the empty string nor zero) and a
non-null low-point value, the name with spaces and ampersands removed to
the integer coercions of cells 2-4 (falsy cells becoming 0), assigned in
row order with an existing key updated in place; the keys are unique. -/
theorem C5_phases_map (wb : Workbook) (rows : List Row) (d : RomData)
    (hw : wb.points = Option.some rows)
    (hsafe : (rowRange rows 2 10).all pointsRowSafe = true)
    (hd : extract_rom_data wb = Except.ok d) :
    d.phases = phasesSpec rows ∧ (d.phases.map Prod.fst).Nodup := by
  obtain ⟨ps, st, hp, hs, hdq⟩ := extract_inv wb d hd
  subst hdq
  have hpf : phasesPart wb = Except.ok ((rowRange rows 2 10).foldl pointsPure []) := by
    unfold phasesPart
    rw [hw]
    exact scanPointsFrom_eq_of_safe _ [] hsafe
  have hok : (Except.ok ps : Except PyErr (List (String × Phase))) =
      Except.ok ((rowRange rows 2 10).foldl pointsPure []) := by
    rw [← hp, hpf]
  injection hok with h
  constructor
  · show ps = phasesSpec rows
    rw [h]
    rfl
  · show (ps.map Prod.fst).Nodup
    rw [h]
    exact foldl_pointsPure_nodup _ [] (by simp)

/-- Claim C5 witness: the amended claim evaluated on the demo workbook,
whose Points rows are the worked examples of the spec. -/
theorem C5_phases_map_witness :
    (demoDoc.phases = phasesSpec pointsDemoRows ∧ (demoDoc.phases.map Prod.fst).Nodup) ∧
    phasesSpec pointsDemoRows = [("PhaseOne", ⟨10, 20, 3⟩), ("PhaseTwo", ⟨5, 8, 2⟩)] :=
  ⟨C5_phases_map wbDemo pointsDemoRows demoDoc rfl rfl rfl, rfl⟩

/-- Claim C6 (confirmed): totals is a function of the finalized phases
alone: three independent summations of pointsLow, pointsHigh and
features over all phase entries, emitted under the keys pointsLow,
pointsHigh and totalFeatures, present exactly when phases is nonempty
and empty otherwise. -/
theorem C6_totals_summation (wb : Workbook) (d : RomData)
    (hd : extract_rom_data wb = Except.ok d) :
    d.totals = (if d.phases = [] then Option.none
      else Option.some
        ⟨(d.phases.map (fun p => p.2.pointsLow)).sum,
         (d.phases.map (fun p => p.2.pointsHigh)).sum,
         (d.phases.map (fun p => p.2.features)).sum⟩) := by
  obtain ⟨ps, st, _, _, hdq⟩ := extract_inv wb d hd
  subst hdq
  simp only [mkDoc]
  unfold totalsOf
  cases ps with
  | nil => simp
  | cons p l =>
    rw [sumBy_eq_map_sum, sumBy_eq_map_sum, sumBy_eq_map_sum]
    simp

/-- Claim C6 witness: the totals law evaluated on the demo workbook,
where the sums are 15, 28 and 5. -/
theorem C6_totals_summation_witness :
    demoDoc.totals = (if demoDoc.phases = [] then Option.none
      else Option.some
        ⟨(demoDoc.phases.map (fun p => p.2.pointsLow)).sum,
         (demoDoc.phases.map (fun p => p.2.pointsHigh)).sum,
         (demoDoc.phases.map (fun p => p.2.features)).sum⟩) ∧
    demoDoc.totals = Option.some ⟨15, 28, 5⟩ :=
  ⟨C6_totals_summation wbDemo demoDoc rfl, rfl⟩

/-- Claim C7 (confirmed): businessCase, valueProjections, timeline and
useCases of every successfully extracted document equal the fixed
constants verbatim, independent of the workbook. -/
theorem C7_static_sections (wb : Workbook) (d : RomData)
    (hd : extract_rom_data wb = Except.ok d) :
    d.businessCase = businessCaseConst ∧
    d.valueProjections = valueProjectionsConst ∧
    d.valueProjections =
      { workingCapitalValue := 400000
        apProductivityValue := 180000
        processAccelerationValue := 70000
        totalYear1Value := 650000
        totalYear2Value := 850000
        paybackMonths := 5
        threeYearROI := 5.5 } ∧
    d.timeline = timelineConst ∧
    d.useCases = useCasesConst := by
  obtain ⟨ps, st, _, _, hdq⟩ := extract_inv wb d hd
  subst hdq
  exact ⟨rfl, rfl, rfl, rfl, rfl⟩

/-- Claim C7 witness: the static sections evaluated on the sheetless
workbook. -/
theorem C7_static_sections_witness :
    (mkDoc Option.none [] []).businessCase = businessCaseConst ∧
    (mkDoc Option.none [] []).valueProjections = valueProjectionsConst ∧
    (mkDoc Option.none [] []).valueProjections =
      { workingCapitalValue := 400000
        apProductivityValue := 180000
        processAccelerationValue := 70000
        totalYear1Value := 650000
        totalYear2Value := 850000
        paybackMonths := 5
        threeYearROI := 5.5 } ∧
    (mkDoc Option.none [] []).timeline = timelineConst ∧
    (mkDoc Option.none [] []).useCases = useCasesConst :=
  C7_static_sections wbNoSheets (mkDoc Option.none [] []) rfl

/-- Claim C8 counterexample: with an existing path to a workbook lacking
the Drivers sheet, the run writes the output file and then terminates
with a KeyError raised by the final summary report, against the claim
that no run writes output and then errors. -/
theorem C8_counterexample :
    main_model (Option.some "rom.xlsx") Option.none everyPathExists wbNoSheetsAt
      = RunResult.errorAfterOutput (mkDoc Option.none [] []) PyErr.keyError ∧
    RunResult.wroteOutput
      (RunResult.errorAfterOutput (mkDoc Option.none [] []) PyErr.keyError) = true ∧
    RunResult.exitsNonzero
      (RunResult.errorAfterOutput (mkDoc Option.none [] []) PyErr.keyError) = true :=
  ⟨rfl, rfl, rfl⟩

/-- Claim C8 (amended): every run ends in one of four ways: a usage exit
with no output, an extraction error with no output, a normal success
whose document has a populated summary, or - when extraction succeeds
with an empty summary, that is, with the Drivers sheet absent - the run
writes the output file and then terminates with a KeyError from the
final summary report. -/
theorem C8_run_outcomes (ap loc : Option String) (fe : String → Bool)
    (wa : String → Workbook) :
    main_model ap loc fe wa = RunResult.usageExit ∨
    (∃ e, main_model ap loc fe wa = RunResult.errorBeforeOutput e) ∨
    (∃ d, main_model ap loc fe wa = RunResult.success d ∧ d.summary.isSome = true) ∨
    (∃ d, main_model ap loc fe wa = RunResult.errorAfterOutput d PyErr.keyError ∧
      d.summary = Option.none) := by
  cases hr : resolvePath ap loc with
  | none =>
    left
    unfold main_model
    rw [hr]
  | some p =>
    cases hfe : fe p with
    | false =>
      left
      unfold main_model
      rw [hr]
      simp [hfe]
    | true =>
      have hm : main_model ap loc fe wa =
          (match extract_rom_data (wa p) with
            | Except.error e => RunResult.errorBeforeOutput e
            | Except.ok d =>
              match printFinal d with
              | Except.ok _ => RunResult.success d
              | Except.error e => RunResult.errorAfterOutput d e) := by
        unfold main_model
        rw [hr]
        simp [hfe]
      rw [hm]
      cases hx : extract_rom_data (wa p) with
      | error e => right; left; exact ⟨e, rfl⟩
      | ok d =>
        cases hsum : d.summary with
        | some s =>
          right; right; left
          refine ⟨d, ?_, by simp [hsum]⟩
          simp [printFinal, hsum]
        | none =>
          right; right; right
          refine ⟨d, ?_, hsum⟩
          simp [printFinal, hsum]

/-- Claim C9 (confirmed): when the explicit positional path names a file
that does not exist, the run is the usage exit of source lines 236-239:
nonzero exit code after the usage diagnostic, and no output written. -/
theorem C9_missing_path_exit (p : String) (loc : Option String) (fe : String → Bool)
    (wa : String → Workbook) (h : fe p = false) :
    main_model (Option.some p) loc fe wa = RunResult.usageExit ∧
    RunResult.wroteOutput RunResult.usageExit = false ∧
    RunResult.exitsNonzero RunResult.usageExit = true := by
  refine ⟨?_, rfl, rfl⟩
  unfold main_model resolvePath
  simp [h]

/-- Claim C9 witness: the usage exit evaluated on a concrete missing
path. -/
theorem C9_missing_path_exit_witness :
    main_model (Option.some "missing.xlsx") Option.none noPathExists wbDemoAt
      = RunResult.usageExit ∧
    RunResult.wroteOutput RunResult.usageExit = false ∧
    RunResult.exitsNonzero RunResult.usageExit = true :=
  C9_missing_path_exit "missing.xlsx" Option.none noPathExists wbDemoAt rfl

/-- Claim C10 counterexample: a Drivers sheet holding a qualifying
velocity row with the numeric value 0 in its 6th cell, followed by a
second matching row assigning 75, ends with targetVelocity 75, not the
60 the claim requires of every workbook containing such a zero row. -/
theorem C10_counterexample :
    extract_rom_data wbVelZeroThen =
      Except.ok (mkDoc (Option.some { defaultSummary with targetVelocity := 75 }) [] []) ∧
    velocityRowMatches velZeroRow = true ∧
    velZeroRow.c5 = Cell.num 0 ∧
    (75 : ℚ) ≠ 60 :=
  ⟨rfl, rfl, rfl, by decide⟩

/-- Claim C10 (amended): when the last qualifying velocity row of the
scanned range has the numeric value 0 in its 6th cell, the zero is
treated like an empty cell by the coercion guard and targetVelocity ends
at the default 60, not 0. -/
theorem C10_zero_velocity_cell (wb : Workbook) (rows pre post : List Row) (r : Row)
    (d : RomData)
    (hw : wb.driversEstimates = Option.some rows)
    (hsplit : rowRange rows 1 20 = pre ++ r :: post)
    (hq : velocityRowMatches r = true)
    (hz : r.c5 = Cell.num 0)
    (hpost : post.all (fun x => !velocityRowMatches x) = true)
    (hd : extract_rom_data wb = Except.ok d) :
    d.summary = Option.some defaultSummary ∧ defaultSummary.targetVelocity = 60 := by
  obtain ⟨ps, st, _, _, hdq⟩ := extract_inv wb d hd
  subst hdq
  refine ⟨?_, rfl⟩
  show summaryPart wb = _
  have hsm : summaryPart wb = Option.some
      { defaultSummary with targetVelocity := scanVelocityFrom 60 (rowRange rows 1 20) } := by
    unfold summaryPart
    rw [hw]
  have hstep : velocityStep (scanVelocityFrom 60 pre) r = 60 := by
    simp [velocityStep, hq, hz, truthy]
  rw [hsm, hsplit, scanVelocityFrom_append]
  show Option.some { defaultSummary with
    targetVelocity := scanVelocityFrom (velocityStep (scanVelocityFrom 60 pre) r) post } = _
  rw [hstep, scanVelocityFrom_no_match post 60 hpost]
  rfl

/-- Claim C10 witness: the amended claim evaluated on the workbook whose
only velocity row carries the zero cell. -/
theorem C10_zero_velocity_cell_witness :
    (mkDoc (Option.some defaultSummary) [] []).summary = Option.some defaultSummary ∧
    defaultSummary.targetVelocity = 60 :=
  C10_zero_velocity_cell wbVelZero [velZeroRow] [] [] velZeroRow
    (mkDoc (Option.some defaultSummary) [] []) rfl rfl rfl rfl rfl rfl
